import Mathlib

/-!
Verification development for the bitplay torrent-streaming server
(session lifecycle manager, port allocator, streaming responder).

The Go source is shallowly embedded: subtitle text is modelled as
`List Char` (the code converts the byte slice to a string and works
line-by-line over ASCII text), the global mutable state
(`sessions`, `usedPorts`, open engine clients, temp directories on disk)
is modelled as an explicit `ServerState` record threaded through the
handlers, and the sources of nondeterminism (random port draws, the
outcome of network calls, the metadata-ready signal) are inputs.
-/

/-! ### Go text primitives used by the handlers -/

/-- Go `strings.Split(s, sep)` for a one-character separator
(the source only ever splits on a single newline character). -/
def goSplit (sep : Char) : List Char → List (List Char)
  | [] => [[]]
  | c :: cs =>
    if c = sep then [] :: goSplit sep cs
    else
      match goSplit sep cs with
      | [] => [[c]]
      | l :: ls => (c :: l) :: ls

/-- Go `unicode.IsSpace` restricted to Latin-1 ('\t' '\n' '\v' '\f' '\r'
' ' U+0085 U+00A0); the Unicode table above U+00FF is not modelled and no
claim depends on it. -/
def goIsSpace (c : Char) : Bool :=
  c.toNat = 9 || c.toNat = 10 || c.toNat = 11 || c.toNat = 12 ||
  c.toNat = 13 || c.toNat = 32 || c.toNat = 133 || c.toNat = 160

/-- Go `strings.TrimSpace`. -/
def trimSpace (cs : List Char) : List Char :=
  ((cs.dropWhile goIsSpace).reverse.dropWhile goIsSpace).reverse

/-- Decides whether a character is an ASCII decimal digit. -/
def isDigitChar (c : Char) : Bool :=
  48 ≤ c.toNat && c.toNat ≤ 57

/-- Value of a nonempty all-digit string; `none` otherwise (the digits
phase of Go `strconv.ParseInt` base 10). -/
def digitsVal (cs : List Char) : Option Nat :=
  if cs = [] then none
  else if cs.all isDigitChar then
    some (cs.foldl (fun n c => 10 * n + (c.toNat - 48)) 0)
  else none

/-- Go `strconv.Atoi`: optional sign, nonempty digit run, 64-bit range
check (out-of-range input returns an error, modelled as `none`). -/
def goAtoi (cs : List Char) : Option Int :=
  match cs with
  | [] => none
  | c :: rest =>
    if c = '-' then
      (digitsVal rest).bind fun n =>
        if (n : Int) ≤ 9223372036854775808 then some (-(n : Int)) else none
    else if c = '+' then
      (digitsVal rest).bind fun n =>
        if (n : Int) ≤ 9223372036854775807 then some ((n : Int)) else none
    else
      (digitsVal cs).bind fun n =>
        if (n : Int) ≤ 9223372036854775807 then some ((n : Int)) else none

/-- Boolean list-prefix test (Go `strings.HasPrefix` on rune lists). -/
def listHasPrefixB : List Char → List Char → Bool
  | [], _ => true
  | _ :: _, [] => false
  | p :: ps, c :: cs => p == c && listHasPrefixB ps cs

/-- Go `strings.Contains(s, pat)`. -/
def containsSub (pat : List Char) : List Char → Bool
  | [] => listHasPrefixB pat []
  | c :: cs => listHasPrefixB pat (c :: cs) || containsSub pat cs

/-- Go `strings.HasPrefix` on `String`s. -/
def goHasPrefix (pre s : String) : Bool :=
  listHasPrefixB pre.data s.data

/-- Go `strings.Replace(line, ",", ".", -1)`: the pattern is a single
character, so the replacement is a character map. -/
def commaToPeriod (cs : List Char) : List Char :=
  cs.map (fun c => if c = ',' then '.' else c)

/-! ### convertSRTtoVTT (src/unnamed/part_001, lines 1579-1609) -/

/-- Timestamp-line marker " --> ". -/
def arrowPat : List Char := (" --> ").data

/-- The "WEBVTT" header line plus blank line prepended by the converter. -/
def vttHeader : List Char := ("WEBVTT\n\n").data

/-- One iteration of the conversion loop body: a line whose trimmed text
parses as an integer is skipped (`continue`); a line containing " --> "
has its commas rewritten to periods; every kept line is appended with a
newline. -/
def processLine (line : List Char) : List Char :=
  if (goAtoi (trimSpace line)).isSome then []
  else if containsSub arrowPat line then commaToPeriod line ++ ['\n']
  else line ++ ['\n']

/-- Go `convertSRTtoVTT`: split on newlines and fold the loop body over
the lines, starting from the header. -/
def convertSRTtoVTT (srt : List Char) : List Char :=
  (goSplit '\n' srt).foldl (fun acc line => acc ++ processLine line) vttHeader

/-! ### HTTP responses written by the handlers -/

/-- An HTTP response as written by `respondWithJSON` / `http.Error`:
status code plus the error/body text. -/
structure Response where
  status : Nat
  body : String
deriving DecidableEq

def respInvalidRequest : Response := ⟨400, "Invalid request"⟩

def respNoMagnet : Response := ⟨400, "No magnet link provided"⟩

def respInvalidURL : Response := ⟨400, "Invalid URL"⟩

def respFailedDownload : Response := ⟨400, "Failed to download"⟩

def respNonMagnetRedirect : Response := ⟨400, "URL redirects to non-magnet content"⟩

def respInvalidMagnetLink : Response := ⟨400, "Invalid magnet link"⟩

def respClientCreateFailed : Response := ⟨500, "Failed to create client with proxy"⟩

def respInvalidMagnetUrl : Response := ⟨400, "Invalid magnet url"⟩

def respTimeout : Response :=
  ⟨504, "Timeout getting info - proxy might be blocking BitTorrent traffic"⟩

def respSessionOk : Response := ⟨200, "sessionId"⟩

def respReadSubtitleFailed : Response := ⟨500, "Failed to read subtitle file"⟩

def respInvalidFileIndex : Response := ⟨400, "Invalid file index"⟩

def respIndexOutOfRange : Response := ⟨400, "File index out of range"⟩

/-! ### Data model: TorrentSession and the global mutable state -/

/-- Go `TorrentSession` (src/unnamed/part_001, lines 830-837). The engine
`Client` (together with its `Torrent`) is modelled by an opaque handle
`clientId`; an id is a member of `ServerState.openClients` while the
client has not been `Close`d. -/
structure TorrentSession where
  clientId : Nat
  port : Nat
  lastUsed : Nat
  tempDataDir : String
deriving DecidableEq

/-- The globals of the Go program: the `sessions` sync.Map (association
list, later stores shadow earlier ones), the `usedPorts` map (list of
in-use ports), the set of temp directories existing on disk, and the set
of open engine clients. -/
structure ServerState where
  sessions : List (String × TorrentSession)
  usedPorts : List Nat
  dirs : List String
  openClients : List Nat
deriving DecidableEq

/-- Go `sync.Map.Store`: replace any entry with the same key. -/
def storeSession (m : List (String × TorrentSession)) (k : String)
    (v : TorrentSession) : List (String × TorrentSession) :=
  (k, v) :: m.filter (fun p => p.1 != k)

/-! ### Port allocator (src/unnamed/part_001, lines 961-989) -/

/-- The retry loop of `getAvailablePort`: each element of `draws` is one
output of `rand.Intn(50000)`; the candidate `10000 + draw` is taken and
marked in-use as soon as it is not already in the map. -/
def tryDraws (used : List Nat) : List Nat → Option (Nat × List Nat)
  | [] => none
  | d :: ds =>
    if (10000 + d) ∈ used then tryDraws used ds
    else some (10000 + d, (10000 + d) :: used)

/-- Go `getAvailablePort`: up to 50 random draws from the primary range;
if all collide, a fallback port `60000 + rand.Intn(5000)` is returned
without being recorded in the in-use map. -/
def getAvailablePort (draws : List Nat) (fallbackDraw : Nat)
    (used : List Nat) : Nat × List Nat :=
  match tryDraws used (draws.take 50) with
  | some r => r
  | none => (60000 + fallbackDraw, used)

/-- Go `releasePort`: `usedPorts.Delete(port)`, a no-op on a port that is
not in the map. -/
def releasePort (used : List Nat) (port : Nat) : List Nat :=
  used.erase port

/-! ### Teardown and the idle reaper (src/unnamed/part_001, lines 1619-1652) -/

/-- The per-session teardown body of `cleanupSessions`: drop the torrent
and close the client (the handle leaves `openClients`), release the port,
and remove the temp directory when it is nonempty. -/
def teardownResources (st : ServerState) (s : TorrentSession) : ServerState :=
  { st with
    openClients := st.openClients.erase s.clientId,
    usedPorts := releasePort st.usedPorts s.port,
    dirs := if s.tempDataDir ≠ "" then st.dirs.erase s.tempDataDir else st.dirs }

/-- Go `sync.Map.Delete` on the sessions map. -/
def deleteSessionKey (m : List (String × TorrentSession)) (k : String) :
    List (String × TorrentSession) :=
  m.filter (fun p => p.1 != k)

/-- Teardown of one named session (the reaper body applied to a single
entry); a no-op when the id is unknown. -/
def teardownSession (st : ServerState) (id : String) : ServerState :=
  match st.sessions.lookup id with
  | none => st
  | some s => { teardownResources st s with sessions := deleteSessionKey st.sessions id }

/-- The reaper ticker period: `time.NewTicker(2 * time.Minute)`, in seconds. -/
def cleanupIntervalSeconds : Nat := 2 * 60

/-- The idle threshold: `time.Since(session.LastUsed) > 10*time.Minute`, in seconds. -/
def idleThresholdSeconds : Nat := 10 * 60

/-- The reaper's eligibility test at wall-clock time `now` (seconds). -/
def isExpired (now : Nat) (s : TorrentSession) : Bool :=
  decide (idleThresholdSeconds < now - s.lastUsed)

/-- One sweep of `cleanupSessions`: every expired session is torn down
and deleted from the map; the returned flag is whether `runtime.GC()` is
called, i.e. whether at least one session was cleaned. `sync.Map.Range`
with deletion of visited keys is modelled by filtering the snapshot. -/
def sweep (now : Nat) (st : ServerState) : ServerState × Bool :=
  let expired := st.sessions.filter (fun p => isExpired now p.2)
  let stR := expired.foldl (fun acc p => teardownResources acc p.2) st
  ({ stR with sessions := st.sessions.filter (fun p => !isExpired now p.2) },
   0 < expired.length)

/-- Iterated reaper sweeps at the given sequence of wall-clock times. -/
def sweepMany (times : List Nat) (st : ServerState) : ServerState :=
  times.foldl (fun s t => (sweep t s).1) st

/-! ### Subtitle streaming (src/unnamed/part_001, lines 1516-1534) -/

/-- The subtitle read cap: `io.LimitReader(reader, 10*1024*1024)`. -/
def subtitleLimitBytes : Nat := 10 * 1024 * 1024

/-- The `.srt` + `format=vtt` branch of `torrentHandler`: the file
content is read through a limiting reader that yields at most
`subtitleLimitBytes` bytes, and the conversion of whatever was read is
written with status 200; the only error path is a failing read
(`io.ReadAll` returning an error), which yields a 500. -/
def serveSrtAsVtt (content : List Char) (readOk : Bool) :
    Except Response (List Char) :=
  if readOk then .ok (convertSRTtoVTT (content.take subtitleLimitBytes))
  else .error respReadSubtitleFailed

/-! ### File-index resolution (src/unnamed/part_001, lines 1484-1500) -/

/-- The ".vtt" suffix stripped from the path segment before parsing. -/
def vttSuffix : List Char := (".vtt").data

/-- Boolean list-suffix test (Go `strings.HasSuffix`). -/
def listHasSuffixB (suf s : List Char) : Bool :=
  listHasPrefixB suf.reverse s.reverse

/-- Go `strings.TrimSuffix(s, ".vtt")`. -/
def trimSuffixVtt (s : List Char) : List Char :=
  if listHasSuffixB vttSuffix s then s.take (s.length - 4) else s

/-- The stream branch of `torrentHandler`: strip an optional ".vtt",
`strconv.Atoi` the segment (failure → 400 "Invalid file index"), bounds
check against the session's file list (failure → 400 "File index out of
range"), and otherwise select the file at that index. An `Except.error`
outcome means the 400 response is written and nothing is streamed. -/
def resolveFileIndex (files : List String) (raw : List Char) :
    Except Response String :=
  match goAtoi (trimSuffixVtt raw) with
  | none => .error respInvalidFileIndex
  | some k =>
    if h : k < 0 ∨ (files.length : Int) ≤ k then .error respIndexOutOfRange
    else .ok (files.get ⟨k.toNat, by omega⟩)

/-! ### addTorrentHandler (src/unnamed/part_001, lines 1330-1448) -/

/-- Inputs and nondeterminism of one `addTorrentHandler` call: the
decoded request body (`none` = JSON decode error), whether
`http.NewRequest` accepts the link, the response `(status, Location)` of
the single proxied GET (`none` = transport error; redirects are not
followed because `CheckRedirect` returns `http.ErrUseLastResponse`, so
exactly one hop is observable), the port draws, the fresh temp-dir name
and client handle, the success of `os.MkdirTemp` / `torrent.NewClient` /
`client.AddMagnet`, whether `t.GotInfo()` fires within the 3-minute
timeout, the torrent's info-hash hex string, and the current time. -/
structure AddEnv where
  body : Option String
  urlValid : Bool
  fetchResult : Option (Nat × String)
  draws : List Nat
  fallbackDraw : Nat
  dirName : String
  clientId : Nat
  mkdirOk : Bool
  newClientOk : Bool
  addMagnetOk : Bool
  gotInfo : Bool
  infoHash : String
  now : Nat
deriving DecidableEq

def magnetPre : String := "magnet:"

def httpPre : String := "http"

/-- The link-resolution step (lines 1344-1395): for an http(s) link,
issue one GET; on a 3xx response whose Location is a magnet URI the
magnet is replaced by it, on a 3xx to anything else the handler responds
400 and returns; a non-3xx response leaves the magnet unchanged. -/
def resolveStep (env : AddEnv) (magnet0 : String) : Except Response String :=
  if goHasPrefix httpPre magnet0 then
    if env.urlValid = false then .error respInvalidURL
    else
      match env.fetchResult with
      | none => .error respFailedDownload
      | some sl =>
        if 300 ≤ sl.1 ∧ sl.1 < 400 then
          if goHasPrefix magnetPre sl.2 then .ok sl.2
          else .error respNonMagnetRedirect
        else .ok magnet0
  else .ok magnet0

/-- Go `initTorrentWithProxy` (lines 990-1066), resource behaviour:
create the temp dir, lease a port, create the client; on client-creation
failure release the port and remove the dir again ( the proxy and
no-proxy paths unwind identically). `Except.error` carries the unwound
state alongside the 500 the caller writes. -/
def initTorrentWithProxy (env : AddEnv) (st : ServerState) :
    Except ServerState (ServerState × Nat) :=
  if env.mkdirOk = false then .error st
  else
    let st1 : ServerState := { st with dirs := env.dirName :: st.dirs }
    let pu := getAvailablePort env.draws env.fallbackDraw st1.usedPorts
    let st2 : ServerState := { st1 with usedPorts := pu.2 }
    if env.newClientOk then
      .ok ({ st2 with openClients := env.clientId :: st2.openClients }, pu.1)
    else
      .error { st2 with
        usedPorts := releasePort st2.usedPorts pu.1,
        dirs := st2.dirs.erase env.dirName }

/-- The deferred unwind in `addTorrentHandler` (lines 1413-1422), which
runs only while `client != nil`: release the port, close the client, and
remove the temp dir when nonempty. -/
def deferredCleanup (st : ServerState) (port : Nat) (dir : String)
    (cid : Nat) : ServerState :=
  { st with
    usedPorts := releasePort st.usedPorts port,
    openClients := st.openClients.erase cid,
    dirs := if dir ≠ "" then st.dirs.erase dir else st.dirs }

/-- The remainder of `addTorrentHandler` after link resolution, applied
to the (possibly resolved) magnet: validate the scheme, build the client,
add the magnet, wait for metadata. The timeout arm of the `select`
(lines 1425-1429) writes the 504 response and then FALLS THROUGH — there
is no `return` — so the session is stored, `client` is set to `nil`
(disabling the deferred unwind) and the 200 response is also written. -/
def afterResolve (env : AddEnv) (st : ServerState) (pre : List Response)
    (magnet : String) : List Response × ServerState :=
  if magnet = "" ∨ goHasPrefix magnetPre magnet = false then
    (pre ++ [respInvalidMagnetLink], st)
  else
    match initTorrentWithProxy env st with
    | .error stE => (pre ++ [respClientCreateFailed], stE)
    | .ok su =>
      if env.addMagnetOk = false then
        (pre ++ [respInvalidMagnetUrl],
         deferredCleanup su.1 su.2 env.dirName env.clientId)
      else
        (pre ++ (if env.gotInfo then [] else [respTimeout]) ++ [respSessionOk],
         { su.1 with
           sessions := storeSession su.1.sessions env.infoHash
             ⟨env.clientId, su.2, env.now, env.dirName⟩ })

/-- Go `addTorrentHandler`: decode the body; an empty magnet gets a 400
response WITHOUT a `return` (line 1340), so processing continues;
resolve http links; then hand over to the creation pipeline. The result
is the list of responses written to the one `ResponseWriter`, in order,
together with the final global state. -/
def addTorrentHandler (env : AddEnv) (st : ServerState) :
    List Response × ServerState :=
  match env.body with
  | none => ([respInvalidRequest], st)
  | some magnet0 =>
    let pre := if magnet0 = "" then [respNoMagnet] else []
    match resolveStep env magnet0 with
    | .error r => (pre ++ [r], st)
    | .ok magnet => afterResolve env st pre magnet

/-! ### The fallback-path scenario refuting the unrestricted C3 claim -/

/-- First request: primary draw 0 leases port 10000. -/
def cexEnv1 : AddEnv :=
  ⟨some ("magnet:?xt=urn:btih:aaa"), true, none, [0], 0, "dir1", 1,
    true, true, true, true, "h1", 0⟩

/-- Second request: all 50 draws hit the already-used port 10000, so the
allocator falls back to 60000 + 0 without recording it. -/
def cexEnv2 : AddEnv :=
  ⟨some ("magnet:?xt=urn:btih:bbb"), true, none, List.replicate 50 0, 0,
    "dir2", 2, true, true, true, true, "h2", 0⟩

/-- Third request: same collision pattern and same fallback draw. -/
def cexEnv3 : AddEnv :=
  ⟨some ("magnet:?xt=urn:btih:ccc"), true, none, List.replicate 50 0, 0,
    "dir3", 3, true, true, true, true, "h3", 0⟩

/-- The server state after the three successful createSession calls. -/
def cexSt3 : ServerState :=
  (addTorrentHandler cexEnv3
    (addTorrentHandler cexEnv2
      (addTorrentHandler cexEnv1 ⟨[], [], [], []⟩).2).2).2

/-- Predicate: session A's resources are live but no entry of the session map references
them: the idle reaper, which only tears down what it finds in the map,
can never reclaim them. -/
def untracked (st : ServerState) (A : TorrentSession) : Prop :=
  A.port ∈ st.usedPorts ∧ A.clientId ∈ st.openClients ∧
  A.tempDataDir ∈ st.dirs ∧
  ∀ p ∈ st.sessions, p.2.port ≠ A.port ∧ p.2.clientId ≠ A.clientId ∧
    p.2.tempDataDir ≠ A.tempDataDir

/-! ### Structural lemmas about the SRT-to-VTT conversion -/

/-- Folding the loop body is the header followed by the processed lines. -/
theorem foldl_processLine (ls : List (List Char)) (acc : List Char) :
    ls.foldl (fun a l => a ++ processLine l) acc =
      acc ++ (ls.map processLine).flatten := by
  induction ls generalizing acc with
  | nil => simp
  | cons l ls ih => simp [ih, List.append_assoc]

/-- The conversion, written non-iteratively. -/
theorem convertSRTtoVTT_eq (srt : List Char) :
    convertSRTtoVTT srt =
      vttHeader ++ ((goSplit '\n' srt).map processLine).flatten := by
  unfold convertSRTtoVTT
  exact foldl_processLine _ _

/-- Every conversion output starts with the 8-character header. -/
theorem convertSRTtoVTT_take8 (srt : List Char) :
    (convertSRTtoVTT srt).take 8 = vttHeader := by
  rw [convertSRTtoVTT_eq]
  exact List.take_left' (by decide)

/-- Lines whose trimmed content parses as an integer are dropped. -/
theorem processLine_integer (line : List Char)
    (h : (goAtoi (trimSpace line)).isSome = true) : processLine line = [] := by
  simp [processLine, h]

/-- Non-integer lines containing " --> " get commas rewritten to periods. -/
theorem processLine_arrow (line : List Char)
    (h1 : (goAtoi (trimSpace line)).isSome = false)
    (h2 : containsSub arrowPat line = true) :
    processLine line = commaToPeriod line ++ ['\n'] := by
  simp [processLine, h1, h2]

/-- Claim C6: on the input "1\n00:00:20,000 --> 00:00:24,400\nHello\n"
the conversion yields "WEBVTT\n\n" followed by
"00:00:20.000 --> 00:00:24.400\nHello\n" (the cue-index line "1" is
removed); in general the output starts with the "WEBVTT" header line,
numeric cue-index lines are dropped, and commas are replaced by periods
on lines containing " --> ". -/
theorem C6_subtitle_conversion :
    convertSRTtoVTT (("1\n00:00:20,000 --> 00:00:24,400\nHello\n").data) =
      (("WEBVTT\n\n") ++ ("00:00:20.000 --> 00:00:24.400\nHello\n") ++ ("\n")).data ∧
    (∀ srt : List Char, (convertSRTtoVTT srt).take 8 = vttHeader) ∧
    (∀ line : List Char, (goAtoi (trimSpace line)).isSome = true →
      processLine line = []) ∧
    (∀ line : List Char, (goAtoi (trimSpace line)).isSome = false →
      containsSub arrowPat line = true →
      processLine line = commaToPeriod line ++ ['\n']) :=
  ⟨by decide, convertSRTtoVTT_take8, processLine_integer, processLine_arrow⟩

/-- Witness for C6: the hypothesised parts evaluated at concrete lines. -/
theorem C6_subtitle_conversion_witness :
    processLine (("12").data) = [] ∧
    processLine (("00:01:02,500 --> 00:01:04,000").data) =
      commaToPeriod (("00:01:02,500 --> 00:01:04,000").data) ++ ['\n'] :=
  ⟨C6_subtitle_conversion.2.2.1 _ (by decide),
   C6_subtitle_conversion.2.2.2 _ (by decide) (by decide)⟩

/-- Claim C9: the conversion removes every line whose trimmed content
parses as an integer, not only cue-index lines: for the input whose cue
text is "42", that text line is present in the input's lines but absent
from the output's lines. -/
theorem C9_integer_text_lines_dropped :
    (("42").data) ∈ goSplit '\n' (("1\n00:00:20,000 --> 00:00:24,400\n42\n").data) ∧
    (("42").data) ∉
      goSplit '\n' (convertSRTtoVTT (("1\n00:00:20,000 --> 00:00:24,400\n42\n").data)) ∧
    (∀ line : List Char, (goAtoi (trimSpace line)).isSome = true →
      processLine line = []) :=
  ⟨by decide, by decide, processLine_integer⟩

/-- Witness for C9: the hypothesised part evaluated at a concrete line. -/
theorem C9_integer_text_lines_dropped_witness :
    processLine (("  007 ").data) = [] :=
  C9_integer_text_lines_dropped.2.2 _ (by decide)

/-! ### Evaluation of the conversion on a uniform non-newline payload -/

/-- A run of letters contains no newline, so it is a single line. -/
theorem goSplit_replicate_a (n : Nat) :
    goSplit '\n' (List.replicate n 'a') = [List.replicate n 'a'] := by
  induction n with
  | zero => rfl
  | succ n ih =>
    have hne : ¬ ('a' = '\n') := by decide
    rw [List.replicate_succ]
    simp [goSplit, hne, ih]

/-- Letters are not whitespace. -/
theorem dropWhile_replicate_a (n : Nat) :
    (List.replicate n 'a').dropWhile goIsSpace = List.replicate n 'a' := by
  cases n with
  | zero => rfl
  | succ n =>
    rw [List.replicate_succ, List.dropWhile_cons]
    simp [show goIsSpace 'a' = false from by decide]

theorem trimSpace_replicate_a (n : Nat) :
    trimSpace (List.replicate n 'a') = List.replicate n 'a' := by
  unfold trimSpace
  rw [dropWhile_replicate_a, List.reverse_replicate, dropWhile_replicate_a,
    List.reverse_replicate]

theorem digitsVal_replicate_a (n : Nat) :
    digitsVal (List.replicate n 'a') = none := by
  cases n with
  | zero => rfl
  | succ n =>
    have hd : isDigitChar 'a' = false := by decide
    simp [digitsVal, List.replicate_succ, List.all_cons, hd]

theorem goAtoi_replicate_a (n : Nat) :
    goAtoi (List.replicate n 'a') = none := by
  cases n with
  | zero => rfl
  | succ n =>
    have h1 : ¬ ('a' = '-') := by decide
    have h2 : ¬ ('a' = '+') := by decide
    rw [List.replicate_succ]
    simp only [goAtoi, if_neg h1, if_neg h2]
    rw [← List.replicate_succ, digitsVal_replicate_a]
    rfl

theorem containsSub_arrow_replicate_a (n : Nat) :
    containsSub arrowPat (List.replicate n 'a') = false := by
  induction n with
  | zero => rfl
  | succ n ih =>
    have harrow : arrowPat = ' ' :: (("--> ").data) := by decide
    have hpre : listHasPrefixB arrowPat ('a' :: List.replicate n 'a') = false := by
      rw [harrow]
      simp [listHasPrefixB, show ((' ' == 'a') = false) from by decide]
    rw [List.replicate_succ]
    show (listHasPrefixB arrowPat ('a' :: List.replicate n 'a') ||
      containsSub arrowPat (List.replicate n 'a')) = false
    rw [hpre, ih]
    rfl

theorem processLine_replicate_a (n : Nat) :
    processLine (List.replicate n 'a') = List.replicate n 'a' ++ ['\n'] := by
  unfold processLine
  rw [trimSpace_replicate_a, goAtoi_replicate_a]
  simp [containsSub_arrow_replicate_a]

theorem convertSRTtoVTT_replicate_a (n : Nat) :
    convertSRTtoVTT (List.replicate n 'a') =
      vttHeader ++ List.replicate n 'a' ++ ['\n'] := by
  rw [convertSRTtoVTT_eq, goSplit_replicate_a]
  simp [processLine_replicate_a, List.append_assoc]

/-- Counterexample to claim C2: an 11 MiB subtitle is NOT rejected — the
limiting reader silently truncates it to its first 10 MiB, and the
server serves the conversion of the truncation (a 200, not an error),
which differs from the conversion of the full content. -/
theorem C2_counterexample :
    subtitleLimitBytes < (List.replicate (11 * 1024 * 1024) 'a').length ∧
    serveSrtAsVtt (List.replicate (11 * 1024 * 1024) 'a') true =
      .ok (convertSRTtoVTT (List.replicate subtitleLimitBytes 'a')) ∧
    convertSRTtoVTT (List.replicate subtitleLimitBytes 'a') ≠
      convertSRTtoVTT (List.replicate (11 * 1024 * 1024) 'a') := by
  refine ⟨?_, ?_, ?_⟩
  · rw [List.length_replicate]
    decide
  · show Except.ok (convertSRTtoVTT ((List.replicate (11 * 1024 * 1024) 'a').take
      subtitleLimitBytes)) = _
    rw [List.take_replicate,
      show min subtitleLimitBytes (11 * 1024 * 1024) = subtitleLimitBytes from by decide]
  · intro e
    rw [convertSRTtoVTT_replicate_a, convertSRTtoVTT_replicate_a] at e
    have h := congrArg List.length e
    simp only [List.length_append] at h
    rw [List.length_replicate, List.length_replicate] at h
    unfold subtitleLimitBytes at h
    omega

/-- Claim C2 (amended): a subtitle whose content exceeds 10 MiB is not
rejected; the limiting reader truncates the content to its first 10 MiB
and the conversion of the truncation is served. Content at or below
10 MiB is read in full and converted; the only error response on this
path is a failing read. -/
theorem C2_amended_subtitle_truncation (content : List Char) :
    serveSrtAsVtt content true =
      .ok (convertSRTtoVTT (content.take subtitleLimitBytes)) ∧
    (content.length ≤ subtitleLimitBytes →
      serveSrtAsVtt content true = .ok (convertSRTtoVTT content)) ∧
    serveSrtAsVtt content false = .error respReadSubtitleFailed := by
  refine ⟨rfl, ?_, rfl⟩
  intro h
  unfold serveSrtAsVtt
  rw [List.take_of_length_le h]
  simp

/-- Witness for C2 (amended): a small subtitle is read in full. -/
theorem C2_amended_subtitle_truncation_witness :
    serveSrtAsVtt (("1\nHi\n").data) true =
      .ok (convertSRTtoVTT (("1\nHi\n").data)) :=
  (C2_amended_subtitle_truncation (("1\nHi\n").data)).2.1 (by decide)

/-- Claim C8: a stream request whose file-index segment does not parse as
a decimal integer in [0, number of files) gets a 400 error and selects no
file (an `Except.error` outcome means the 400 is written and nothing is
streamed); a valid index selects the corresponding entry of the
session's file list. -/
theorem C8_file_index_validation (files : List String) (raw : List Char) :
    (goAtoi (trimSuffixVtt raw) = none →
      resolveFileIndex files raw = .error respInvalidFileIndex) ∧
    (∀ k : Int, goAtoi (trimSuffixVtt raw) = some k →
      ((k < 0 ∨ (files.length : Int) ≤ k) →
        resolveFileIndex files raw = .error respIndexOutOfRange) ∧
      (0 ≤ k → k < (files.length : Int) →
        ∃ h : k.toNat < files.length,
          resolveFileIndex files raw = .ok (files.get ⟨k.toNat, h⟩))) ∧
    (∀ r : Response, resolveFileIndex files raw = .error r → r.status = 400) := by
  refine ⟨?_, ?_, ?_⟩
  · intro h
    simp [resolveFileIndex, h]
  · intro k hk
    constructor
    · intro hrange
      simp [resolveFileIndex, hk, hrange]
    · intro h0 hlt
      have hb : k.toNat < files.length := by omega
      refine ⟨hb, ?_⟩
      have hc : ¬ (k < 0 ∨ (files.length : Int) ≤ k) := by omega
      simp [resolveFileIndex, hk, hc]
  · intro r hr
    unfold resolveFileIndex at hr
    split at hr
    · cases hr
      decide
    · split at hr
      · cases hr
        decide
      · cases hr

/-- Witness for C8: a concrete session with two files: index "1.vtt"
resolves to the second file, index "5" and index "x" are rejected. -/
theorem C8_file_index_validation_witness :
    resolveFileIndex (["a.mp4", "b.srt"]) (("5").data) =
      .error respIndexOutOfRange ∧
    resolveFileIndex (["a.mp4", "b.srt"]) (("x").data) =
      .error respInvalidFileIndex := by
  constructor
  · exact ((C8_file_index_validation (["a.mp4", "b.srt"]) (("5").data)).2.1 5
      (by decide)).1 (by decide)
  · exact (C8_file_index_validation (["a.mp4", "b.srt"]) (("x").data)).1 (by decide)

/-- Claim C1 (code bug): evaluation of `addTorrentHandler` at a request
whose engine never reports metadata within the 3-minute timeout. The
`select` timeout arm writes the 504 `MetadataTimeout` response but has no
`return`, so — contrary to the claim and the spec — the handler then
stores the session, sets `client` to nil (disabling the deferred
teardown) and writes a second, 200 response: the port stays leased, the
client stays open, the temp directory stays on disk, and a session IS
registered. -/
theorem C1_timeout_falls_through :
    addTorrentHandler
      ⟨some ("magnet:?xt=urn:btih:aaa"), true, none, [0], 0, "/tmp/bitplay-torrent-1",
        1, true, true, true, false, "aaa", 0⟩
      ⟨[], [], [], []⟩ =
    ([respTimeout, respSessionOk],
     ⟨[("aaa", ⟨1, 10000, 0, "/tmp/bitplay-torrent-1"⟩)], [10000],
      ["/tmp/bitplay-torrent-1"], [1]⟩) := by
  decide

/-- Claim C10: when the decoded body has an empty Magnet field the
handler writes the 400 "No magnet link provided" response but does not
return; execution continues and the scheme check writes a second 400
response ("Invalid magnet link") to the same ResponseWriter. -/
theorem C10_empty_magnet_double_response (env : AddEnv) (st : ServerState)
    (h : env.body = some ("")) :
    addTorrentHandler env st = ([respNoMagnet, respInvalidMagnetLink], st) := by
  have h1 : resolveStep env ("") = .ok ("") := rfl
  have h2 : afterResolve env st [respNoMagnet] ("") =
      ([respNoMagnet, respInvalidMagnetLink], st) := rfl
  simp [addTorrentHandler, h, h1, h2]

/-- Witness for C10 at a concrete request and state. -/
theorem C10_empty_magnet_double_response_witness :
    addTorrentHandler
      ⟨some (""), true, none, [0], 0, "d", 1, true, true, true, true, "h", 0⟩
      ⟨[], [], [], []⟩ =
    ([respNoMagnet, respInvalidMagnetLink], ⟨[], [], [], []⟩) :=
  C10_empty_magnet_double_response _ _ rfl

/-- Claim C5: for an http(s) link whose single (unfollowed) response is a
3xx redirect: a `magnet:` Location resolves the link and session creation
proceeds with the resolved magnet (the handler continues as the creation
pipeline applied to it); any other Location yields the 400
`UnresolvableLink` response ("URL redirects to non-magnet content") and
the state — hence the session map — is unchanged. Only one redirect hop
is observable by construction: the client's `CheckRedirect` returns
`http.ErrUseLastResponse`, so the model carries only the first response
and no oracle exists for fetching the Location. -/
theorem C5_link_resolution (env : AddEnv) (st : ServerState) (m : String)
    (sl : Nat × String)
    (hb : env.body = some m) (hhttp : goHasPrefix httpPre m = true)
    (hurl : env.urlValid = true) (hf : env.fetchResult = some sl)
    (h3 : 300 ≤ sl.1) (h4 : sl.1 < 400) :
    (goHasPrefix magnetPre sl.2 = true →
      resolveStep env m = .ok sl.2 ∧
      addTorrentHandler env st = afterResolve env st [] sl.2) ∧
    (goHasPrefix magnetPre sl.2 = false →
      addTorrentHandler env st = ([respNonMagnetRedirect], st) ∧
      (addTorrentHandler env st).2.sessions = st.sessions) := by
  have hm : m ≠ "" := by
    intro e
    rw [e] at hhttp
    exact absurd hhttp (by decide)
  constructor
  · intro hmag
    have hres : resolveStep env m = .ok sl.2 := by
      simp [resolveStep, hhttp, hurl, hf, h3, h4, hmag]
    refine ⟨hres, ?_⟩
    simp [addTorrentHandler, hb, hm, hres]
  · intro hmag
    have hres : resolveStep env m = .error respNonMagnetRedirect := by
      simp [resolveStep, hhttp, hurl, hf, h3, h4, hmag]
    constructor
    · simp [addTorrentHandler, hb, hm, hres]
    · simp [addTorrentHandler, hb, hm, hres]

/-- Witness for C5: a concrete indexer link redirecting to a magnet. -/
theorem C5_link_resolution_witness :
    resolveStep
      ⟨some ("http://indexer/download/1"), true, some (302, "magnet:?xt=urn:btih:abc"),
        [0], 0, "d", 1, true, true, true, true, "h", 0⟩
      ("http://indexer/download/1") = .ok ("magnet:?xt=urn:btih:abc") :=
  ((C5_link_resolution
      ⟨some ("http://indexer/download/1"), true, some (302, "magnet:?xt=urn:btih:abc"),
        [0], 0, "d", 1, true, true, true, true, "h", 0⟩
      ⟨[], [], [], []⟩ ("http://indexer/download/1") (302, "magnet:?xt=urn:btih:abc")
      rfl (by decide) rfl rfl (by decide) (by decide)).1 (by decide)).1

/-! ### Fold-erase lemmas for teardown reasoning -/

/-- Erasing elements never adds members. -/
theorem foldl_erase_subset {α β : Type} [DecidableEq α] (f : β → α) :
    ∀ (as : List β) (l : List α),
      as.foldl (fun acc x => acc.erase (f x)) l ⊆ l := by
  intro as
  induction as with
  | nil => intro l b hb; exact hb
  | cons x xs ih =>
    intro l b hb
    exact List.erase_subset _ _ (ih (l.erase (f x)) hb)

/-- After a nodup in-use list has an element erased for some item of the
fold, that element is gone from the result. -/
theorem not_mem_foldl_erase {α β : Type} [DecidableEq α] (f : β → α) :
    ∀ (as : List β) (l : List α) (a : α), l.Nodup →
      (∃ b ∈ as, f b = a) → a ∉ as.foldl (fun acc x => acc.erase (f x)) l := by
  intro as
  induction as with
  | nil =>
    intro l a _ hex
    obtain ⟨b, hb, _⟩ := hex
    cases hb
  | cons x xs ih =>
    intro l a hnd hex
    obtain ⟨b, hb, hfb⟩ := hex
    rcases List.mem_cons.mp hb with hbx | hbxs
    · subst hbx
      intro hmem
      have hb2 := foldl_erase_subset f xs (l.erase (f b)) hmem
      rw [hfb] at hb2
      exact hnd.not_mem_erase hb2
    · exact ih (l.erase (f x)) a (hnd.erase (f x)) ⟨b, hbxs, hfb⟩

/-- An element not erased by any item of the fold survives it. -/
theorem mem_foldl_erase_of_ne {α β : Type} [DecidableEq α] (f : β → α) :
    ∀ (as : List β) (l : List α) (a : α), a ∈ l →
      (∀ b ∈ as, f b ≠ a) → a ∈ as.foldl (fun acc x => acc.erase (f x)) l := by
  intro as
  induction as with
  | nil => intro l a ha _; exact ha
  | cons x xs ih =>
    intro l a ha hne
    refine ih (l.erase (f x)) a ?_ (fun b hb => hne b (List.mem_cons_of_mem _ hb))
    exact (List.mem_erase_of_ne (fun e => hne x (List.mem_cons_self x xs) e.symm)).mpr ha

/-- Guarded fold-erase (the dirs component: `RemoveAll` is skipped on an
empty name): erasing never adds members. -/
theorem foldl_eraseDir_subset {β : Type} (f : β → String) (g : β → Prop)
    [DecidablePred g] :
    ∀ (as : List β) (l : List String),
      as.foldl (fun acc x => if g x then acc.erase (f x) else acc) l ⊆ l := by
  intro as
  induction as with
  | nil => intro l b hb; exact hb
  | cons x xs ih =>
    intro l b hb
    have hb2 := ih (if g x then l.erase (f x) else l) hb
    by_cases hg : g x
    · rw [if_pos hg] at hb2
      exact List.erase_subset _ _ hb2
    · rw [if_neg hg] at hb2
      exact hb2

/-- Guarded fold-erase removal: a nodup list loses the erased element. -/
theorem not_mem_foldl_eraseDir {β : Type} (f : β → String) (g : β → Prop)
    [DecidablePred g] :
    ∀ (as : List β) (l : List String) (a : String), l.Nodup →
      (∃ b ∈ as, g b ∧ f b = a) →
      a ∉ as.foldl (fun acc x => if g x then acc.erase (f x) else acc) l := by
  intro as
  induction as with
  | nil =>
    intro l a _ hex
    obtain ⟨b, hb, _⟩ := hex
    cases hb
  | cons x xs ih =>
    intro l a hnd hex
    obtain ⟨b, hb, hgb, hfb⟩ := hex
    rcases List.mem_cons.mp hb with hbx | hbxs
    · subst hbx
      intro hmem
      have hb2 := foldl_eraseDir_subset f g xs (if g b then l.erase (f b) else l) hmem
      rw [if_pos hgb, hfb] at hb2
      exact hnd.not_mem_erase hb2
    · intro hmem
      refine ih (if g x then l.erase (f x) else l) a ?_ ⟨b, hbxs, hgb, hfb⟩ hmem
      by_cases hg : g x
      · rw [if_pos hg]
        exact hnd.erase (f x)
      · rw [if_neg hg]
        exact hnd

/-- Guarded fold-erase preservation: an element erased by no item survives. -/
theorem mem_foldl_eraseDir_of_ne {β : Type} (f : β → String) (g : β → Prop)
    [DecidablePred g] :
    ∀ (as : List β) (l : List String) (a : String), a ∈ l →
      (∀ b ∈ as, f b ≠ a) →
      a ∈ as.foldl (fun acc x => if g x then acc.erase (f x) else acc) l := by
  intro as
  induction as with
  | nil => intro l a ha _; exact ha
  | cons x xs ih =>
    intro l a ha hne
    refine ih (if g x then l.erase (f x) else l) a ?_
      (fun b hb => hne b (List.mem_cons_of_mem _ hb))
    by_cases hg : g x
    · rw [if_pos hg]
      exact (List.mem_erase_of_ne
        (fun e => hne x (List.mem_cons_self x xs) e.symm)).mpr ha
    · rw [if_neg hg]
      exact ha

/-! ### Componentwise view of the reaper's teardown fold -/

theorem foldl_teardown_usedPorts :
    ∀ (es : List (String × TorrentSession)) (st : ServerState),
      (es.foldl (fun acc p => teardownResources acc p.2) st).usedPorts =
        es.foldl (fun l p => l.erase p.2.port) st.usedPorts := by
  intro es
  induction es with
  | nil => intro st; rfl
  | cons e es ih => intro st; exact ih (teardownResources st e.2)

theorem foldl_teardown_openClients :
    ∀ (es : List (String × TorrentSession)) (st : ServerState),
      (es.foldl (fun acc p => teardownResources acc p.2) st).openClients =
        es.foldl (fun l p => l.erase p.2.clientId) st.openClients := by
  intro es
  induction es with
  | nil => intro st; rfl
  | cons e es ih => intro st; exact ih (teardownResources st e.2)

theorem foldl_teardown_dirs :
    ∀ (es : List (String × TorrentSession)) (st : ServerState),
      (es.foldl (fun acc p => teardownResources acc p.2) st).dirs =
        es.foldl (fun l p =>
          if p.2.tempDataDir ≠ "" then l.erase p.2.tempDataDir else l) st.dirs := by
  intro es
  induction es with
  | nil => intro st; rfl
  | cons e es ih => intro st; exact ih (teardownResources st e.2)

theorem foldl_teardown_sessions :
    ∀ (es : List (String × TorrentSession)) (st : ServerState),
      (es.foldl (fun acc p => teardownResources acc p.2) st).sessions =
        st.sessions := by
  intro es
  induction es with
  | nil => intro st; rfl
  | cons e es ih => intro st; exact ih (teardownResources st e.2)

/-! ### Projections of one sweep -/

theorem sweep_sessions (now : Nat) (st : ServerState) :
    (sweep now st).1.sessions = st.sessions.filter (fun p => !isExpired now p.2) :=
  rfl

theorem sweep_usedPorts (now : Nat) (st : ServerState) :
    (sweep now st).1.usedPorts =
      (st.sessions.filter (fun p => isExpired now p.2)).foldl
        (fun l p => l.erase p.2.port) st.usedPorts :=
  foldl_teardown_usedPorts _ _

theorem sweep_openClients (now : Nat) (st : ServerState) :
    (sweep now st).1.openClients =
      (st.sessions.filter (fun p => isExpired now p.2)).foldl
        (fun l p => l.erase p.2.clientId) st.openClients :=
  foldl_teardown_openClients _ _

theorem sweep_dirs (now : Nat) (st : ServerState) :
    (sweep now st).1.dirs =
      (st.sessions.filter (fun p => isExpired now p.2)).foldl
        (fun l p => if p.2.tempDataDir ≠ "" then l.erase p.2.tempDataDir else l)
        st.dirs :=
  foldl_teardown_dirs _ _

theorem sweep_gc (now : Nat) (st : ServerState) :
    (sweep now st).2 =
      (0 < (st.sessions.filter (fun p => isExpired now p.2)).length : Bool) :=
  rfl

/-- Claim C7: the reaper runs on a fixed 2-minute ticker; in one sweep at
time `now`, every session idle for more than the 10-minute threshold is
torn down in full (deleted from the map, port released, client closed,
temp directory removed) and every session used within the window
survives; garbage collection is requested exactly when at least one
session was removed. The in-use port, open-client and on-disk directory
lists are nodup, as produced by allocation of fresh resources. -/
theorem C7_idle_reaper (now : Nat) (st : ServerState)
    (hports : st.usedPorts.Nodup) (hdirs : st.dirs.Nodup)
    (hclients : st.openClients.Nodup) :
    cleanupIntervalSeconds = 120 ∧
    idleThresholdSeconds = 600 ∧
    (∀ p ∈ st.sessions,
      (idleThresholdSeconds < now - p.2.lastUsed →
        p ∉ (sweep now st).1.sessions ∧
        p.2.port ∉ (sweep now st).1.usedPorts ∧
        p.2.clientId ∉ (sweep now st).1.openClients ∧
        (p.2.tempDataDir ≠ "" → p.2.tempDataDir ∉ (sweep now st).1.dirs)) ∧
      (¬ idleThresholdSeconds < now - p.2.lastUsed →
        p ∈ (sweep now st).1.sessions)) ∧
    ((sweep now st).2 = true ↔
      ∃ p ∈ st.sessions, idleThresholdSeconds < now - p.2.lastUsed) := by
  refine ⟨rfl, rfl, ?_, ?_⟩
  · intro p hp
    constructor
    · intro hidle
      have hexp : isExpired now p.2 = true := decide_eq_true hidle
      have hmemf : p ∈ st.sessions.filter (fun q => isExpired now q.2) :=
        List.mem_filter.mpr ⟨hp, hexp⟩
      refine ⟨?_, ?_, ?_, ?_⟩
      · rw [sweep_sessions]
        intro hm
        have h2 := (List.mem_filter.mp hm).2
        rw [hexp] at h2
        cases h2
      · rw [sweep_usedPorts]
        exact not_mem_foldl_erase (fun q => q.2.port) _ _ _ hports
          ⟨p, hmemf, rfl⟩
      · rw [sweep_openClients]
        exact not_mem_foldl_erase (fun q => q.2.clientId) _ _ _ hclients
          ⟨p, hmemf, rfl⟩
      · intro hne
        rw [sweep_dirs]
        exact not_mem_foldl_eraseDir (fun q => q.2.tempDataDir)
          (fun q => q.2.tempDataDir ≠ "") _ _ _ hdirs ⟨p, hmemf, hne, rfl⟩
    · intro hlive
      rw [sweep_sessions]
      refine List.mem_filter.mpr ⟨hp, ?_⟩
      have hexp : isExpired now p.2 = false := decide_eq_false hlive
      rw [hexp]
      rfl
  · rw [sweep_gc]
    rw [decide_eq_true_eq]
    constructor
    · intro hlen
      obtain ⟨p, hpf⟩ := List.length_pos_iff_exists_mem.mp hlen
      obtain ⟨hp, hq⟩ := List.mem_filter.mp hpf
      exact ⟨p, hp, of_decide_eq_true hq⟩
    · intro hex
      obtain ⟨p, hp, hidle⟩ := hex
      exact List.length_pos_of_mem
        (List.mem_filter.mpr ⟨hp, decide_eq_true hidle⟩)

/-- Witness for C7: a sweep at t = 700 s over one session idle since 0
(expired) and one used at t = 650 s (alive). -/
theorem C7_idle_reaper_witness :
    ("x", (⟨1, 10000, 0, "dx"⟩ : TorrentSession)) ∉
      (sweep 700 ⟨[("x", ⟨1, 10000, 0, "dx"⟩), ("y", ⟨2, 10001, 650, "dy"⟩)],
        [10000, 10001], ["dx", "dy"], [1, 2]⟩).1.sessions ∧
    10000 ∉
      (sweep 700 ⟨[("x", ⟨1, 10000, 0, "dx"⟩), ("y", ⟨2, 10001, 650, "dy"⟩)],
        [10000, 10001], ["dx", "dy"], [1, 2]⟩).1.usedPorts ∧
    ("y", (⟨2, 10001, 650, "dy"⟩ : TorrentSession)) ∈
      (sweep 700 ⟨[("x", ⟨1, 10000, 0, "dx"⟩), ("y", ⟨2, 10001, 650, "dy"⟩)],
        [10000, 10001], ["dx", "dy"], [1, 2]⟩).1.sessions ∧
    (sweep 700 ⟨[("x", ⟨1, 10000, 0, "dx"⟩), ("y", ⟨2, 10001, 650, "dy"⟩)],
        [10000, 10001], ["dx", "dy"], [1, 2]⟩).2 = true := by
  have h := C7_idle_reaper 700
    ⟨[("x", ⟨1, 10000, 0, "dx"⟩), ("y", ⟨2, 10001, 650, "dy"⟩)],
      [10000, 10001], ["dx", "dy"], [1, 2]⟩
    (by decide) (by decide) (by decide)
  obtain ⟨-, -, hall, hgc⟩ := h
  have hx := hall ("x", ⟨1, 10000, 0, "dx"⟩) (by decide)
  have hy := hall ("y", ⟨2, 10001, 650, "dy"⟩) (by decide)
  obtain ⟨hx1, hx2, hx3, -⟩ := hx.1 (by decide)
  exact ⟨hx1, hx2, hy.2 (by decide),
    hgc.mpr ⟨("x", ⟨1, 10000, 0, "dx"⟩), by decide, by decide⟩⟩

/-! ### Allocation and store lemmas -/

/-- A successful primary-range draw marks exactly the returned port,
which was previously free. -/
theorem tryDraws_some :
    ∀ (ds : List Nat) (used : List Nat) (pu : Nat × List Nat),
      tryDraws used ds = some pu → pu.2 = pu.1 :: used ∧ pu.1 ∉ used := by
  intro ds
  induction ds with
  | nil => intro used pu h; cases h
  | cons d ds ih =>
    intro used pu h
    unfold tryDraws at h
    by_cases hc : (10000 + d) ∈ used
    · rw [if_pos hc] at h
      exact ih used pu h
    · rw [if_neg hc] at h
      cases h
      exact ⟨rfl, hc⟩

/-- A `Store` followed by a `Load` of the same key yields the stored value. -/
theorem lookup_storeSession_self (m : List (String × TorrentSession))
    (k : String) (v : TorrentSession) :
    (storeSession m k v).lookup k = some v := by
  unfold storeSession
  rw [List.lookup_cons]
  simp

/-- After deleting a key, looking it up yields nothing. -/
theorem lookup_deleteSessionKey_self :
    ∀ (m : List (String × TorrentSession)) (k : String),
      (deleteSessionKey m k).lookup k = none := by
  intro m
  induction m with
  | nil => intro k; rfl
  | cons p m ih =>
    intro k
    obtain ⟨k1, v1⟩ := p
    unfold deleteSessionKey
    by_cases hp : k1 = k
    · rw [List.filter_cons_of_neg (by simp [hp])]
      exact ih k
    · rw [List.filter_cons_of_pos (by simp [hp])]
      have hbeq : (k == k1) = false := by simp [Ne.symm hp]
      show (match k == k1 with
        | true => some v1
        | false => List.lookup k (List.filter (fun p => p.1 != k) m)) = none
      rw [hbeq]
      exact ih k

/-- Characterization of a fully successful `addTorrentHandler` call on a
direct magnet whose port allocation succeeds in the primary range: one
200 response, and the state gains exactly the leased port, the fresh temp
dir, the open client, and the stored session under the info-hash. -/
theorem addTorrentHandler_success
    (env : AddEnv) (st : ServerState) (m : String) (pu : Nat × List Nat)
    (hb : env.body = some m) (hnm : goHasPrefix httpPre m = false)
    (hmag : goHasPrefix magnetPre m = true) (hm0 : m ≠ "")
    (hmk : env.mkdirOk = true) (hnc : env.newClientOk = true)
    (ham : env.addMagnetOk = true) (hgi : env.gotInfo = true)
    (hprim : tryDraws st.usedPorts (env.draws.take 50) = some pu) :
    addTorrentHandler env st =
      ([respSessionOk],
       ⟨storeSession st.sessions env.infoHash
          ⟨env.clientId, pu.1, env.now, env.dirName⟩,
        pu.2, env.dirName :: st.dirs, env.clientId :: st.openClients⟩) := by
  have hres : resolveStep env m = .ok m := by
    simp [resolveStep, hnm]
  have hinit : initTorrentWithProxy env st =
      .ok (⟨st.sessions, pu.2, env.dirName :: st.dirs,
        env.clientId :: st.openClients⟩, pu.1) := by
    simp [initTorrentWithProxy, hmk, hnc, getAvailablePort, hprim]
  simp [addTorrentHandler, hb, hm0, hres, afterResolve, hmag, hinit, ham, hgi]

/-- Claim C3 (amended): for every successful `createSession` whose port
allocation succeeds through the primary random range (one of the 50
draws finds a free port — `tryDraws` returns `some`), exactly one port
is newly marked in-use and exactly one fresh temp directory exists for
the session until its teardown; teardown removes the port-map entry
(the port is free for reuse), deletes the directory and unregisters the
session; and the live sessions' ports remain pairwise distinct. (The
fallback path after 50 collisions returns a port that is NOT recorded in
the map and may be shared — see the counterexample.) -/
theorem C3_amended_primary_path
    (env : AddEnv) (st : ServerState) (m : String) (pu : Nat × List Nat)
    (hb : env.body = some m) (hnm : goHasPrefix httpPre m = false)
    (hmag : goHasPrefix magnetPre m = true) (hm0 : m ≠ "")
    (hmk : env.mkdirOk = true) (hnc : env.newClientOk = true)
    (ham : env.addMagnetOk = true) (hgi : env.gotInfo = true)
    (hprim : tryDraws st.usedPorts (env.draws.take 50) = some pu)
    (hdirfresh : env.dirName ∉ st.dirs) (hdirne : env.dirName ≠ "")
    (hportsinv : ∀ p ∈ st.sessions, p.2.port ∈ st.usedPorts)
    (hnodup : (st.sessions.map (fun p => p.2.port)).Nodup) :
    (addTorrentHandler env st).1 = [respSessionOk] ∧
    (addTorrentHandler env st).2.usedPorts = pu.1 :: st.usedPorts ∧
    pu.1 ∉ st.usedPorts ∧
    (addTorrentHandler env st).2.dirs = env.dirName :: st.dirs ∧
    env.dirName ∉ st.dirs ∧
    (addTorrentHandler env st).2.sessions.lookup env.infoHash =
      some ⟨env.clientId, pu.1, env.now, env.dirName⟩ ∧
    ((addTorrentHandler env st).2.sessions.map (fun p => p.2.port)).Nodup ∧
    pu.1 ∉ (teardownSession (addTorrentHandler env st).2 env.infoHash).usedPorts ∧
    env.dirName ∉ (teardownSession (addTorrentHandler env st).2 env.infoHash).dirs ∧
    (teardownSession (addTorrentHandler env st).2 env.infoHash).sessions.lookup
      env.infoHash = none := by
  obtain ⟨hpu2, hpu1⟩ := tryDraws_some _ _ _ hprim
  have hh := addTorrentHandler_success env st m pu hb hnm hmag hm0 hmk hnc ham hgi hprim
  have hused : (addTorrentHandler env st).2.usedPorts = pu.1 :: st.usedPorts := by
    rw [hh]
    exact hpu2
  have hdirsEq : (addTorrentHandler env st).2.dirs = env.dirName :: st.dirs := by
    rw [hh]
  have hlk : (addTorrentHandler env st).2.sessions.lookup env.infoHash =
      some ⟨env.clientId, pu.1, env.now, env.dirName⟩ := by
    rw [hh]
    exact lookup_storeSession_self _ _ _
  have htd : teardownSession (addTorrentHandler env st).2 env.infoHash =
      { teardownResources (addTorrentHandler env st).2
          ⟨env.clientId, pu.1, env.now, env.dirName⟩ with
        sessions :=
          deleteSessionKey (addTorrentHandler env st).2.sessions env.infoHash } := by
    unfold teardownSession
    rw [hlk]
  refine ⟨by rw [hh], hused, hpu1, hdirsEq, hdirfresh, hlk, ?_, ?_, ?_, ?_⟩
  · rw [hh]
    show (((env.infoHash, (⟨env.clientId, pu.1, env.now, env.dirName⟩ :
        TorrentSession)) ::
      st.sessions.filter (fun p => p.1 != env.infoHash)).map
        (fun p => p.2.port)).Nodup
    rw [List.map_cons]
    refine List.nodup_cons.mpr ⟨?_, ?_⟩
    · intro hmem
      obtain ⟨p, hpf, hpe⟩ := List.mem_map.mp hmem
      have hps := List.mem_of_mem_filter hpf
      have hpe2 : p.2.port = pu.1 := hpe
      exact hpu1 (hpe2 ▸ hportsinv p hps)
    · exact List.Nodup.sublist ((List.filter_sublist _).map _) hnodup
  · rw [htd]
    show pu.1 ∉ releasePort (addTorrentHandler env st).2.usedPorts pu.1
    unfold releasePort
    rw [hused, List.erase_cons_head]
    exact hpu1
  · rw [htd]
    show env.dirName ∉
      if env.dirName ≠ "" then (addTorrentHandler env st).2.dirs.erase env.dirName
      else (addTorrentHandler env st).2.dirs
    rw [if_pos hdirne, hdirsEq, List.erase_cons_head]
    exact hdirfresh
  · rw [htd]
    exact lookup_deleteSessionKey_self _ _

/-- Witness for C3 (amended): a concrete first session on an empty
server; the draw 0 leases port 10000, teardown frees it again. -/
theorem C3_amended_primary_path_witness :
    (addTorrentHandler
      ⟨some ("magnet:?xt=urn:btih:aaa"), true, none, [0], 0, "dir1", 1,
        true, true, true, true, "h1", 0⟩
      ⟨[], [], [], []⟩).2.usedPorts = [10000] ∧
    10000 ∉ (teardownSession
      (addTorrentHandler
        ⟨some ("magnet:?xt=urn:btih:aaa"), true, none, [0], 0, "dir1", 1,
          true, true, true, true, "h1", 0⟩
        ⟨[], [], [], []⟩).2 ("h1")).usedPorts := by
  have h := C3_amended_primary_path
    ⟨some ("magnet:?xt=urn:btih:aaa"), true, none, [0], 0, "dir1", 1,
      true, true, true, true, "h1", 0⟩
    ⟨[], [], [], []⟩ ("magnet:?xt=urn:btih:aaa") (10000, [10000])
    rfl (by decide) (by decide) (by decide) rfl rfl rfl rfl (by decide)
    (by decide) (by decide) (by decide) (by decide)
  exact ⟨h.2.1, h.2.2.2.2.2.2.2.1⟩

/-- Counterexample to claim C3 as stated: after three successful
createSession calls (each returned only the 200 response), the sessions
"h2" and "h3" are both live and both hold port 60000 — obtained through
the fallback path after 50 colliding draws — so a port is bound to two
live sessions at once, and that port is not marked in the allocator's
in-use mapping at all. -/
theorem C3_counterexample :
    (addTorrentHandler cexEnv1 ⟨[], [], [], []⟩).1 = [respSessionOk] ∧
    (addTorrentHandler cexEnv2
      (addTorrentHandler cexEnv1 ⟨[], [], [], []⟩).2).1 = [respSessionOk] ∧
    (addTorrentHandler cexEnv3
      (addTorrentHandler cexEnv2
        (addTorrentHandler cexEnv1 ⟨[], [], [], []⟩).2).2).1 = [respSessionOk] ∧
    cexSt3.sessions.lookup ("h2") = some ⟨2, 60000, 0, "dir2"⟩ ∧
    cexSt3.sessions.lookup ("h3") = some ⟨3, 60000, 0, "dir3"⟩ ∧
    60000 ∉ cexSt3.usedPorts ∧
    ¬ (cexSt3.sessions.map (fun p => p.2.port)).Nodup := by
  decide

/-! ### Orphaned resources are invisible to the reaper -/

/-- One reaper sweep preserves untracked resources: it erases only
resources of sessions present in the map. -/
theorem untracked_sweep (t : Nat) (st : ServerState) (A : TorrentSession)
    (h : untracked st A) : untracked (sweep t st).1 A := by
  obtain ⟨hp, hc, hd, hs⟩ := h
  refine ⟨?_, ?_, ?_, ?_⟩
  · rw [sweep_usedPorts]
    exact mem_foldl_erase_of_ne _ _ _ _ hp
      (fun b hb => (hs b (List.mem_of_mem_filter hb)).1)
  · rw [sweep_openClients]
    exact mem_foldl_erase_of_ne _ _ _ _ hc
      (fun b hb => (hs b (List.mem_of_mem_filter hb)).2.1)
  · rw [sweep_dirs]
    exact mem_foldl_eraseDir_of_ne _ _ _ _ _ hd
      (fun b hb => (hs b (List.mem_of_mem_filter hb)).2.2)
  · intro p hp2
    rw [sweep_sessions] at hp2
    exact hs p (List.mem_of_mem_filter hp2)

/-- Any number of reaper sweeps preserves untracked resources. -/
theorem untracked_sweepMany (ts : List Nat) :
    ∀ (st : ServerState) (A : TorrentSession),
      untracked st A → untracked (sweepMany ts st) A := by
  induction ts with
  | nil => intro st A h; exact h
  | cons t ts ih => intro st A h; exact ih (sweep t st).1 A (untracked_sweep t st A h)

/-- Claim C4: when createSession succeeds again for a magnet with the
same content hash while session `A` is still registered under that id,
the second `Store` overwrites the map entry, after which no map entry
references `A`'s engine client, port or temp directory; those resources
are still held (client open, port leased, directory on disk) and every
future sequence of reaper sweeps leaves them held — they leak until
process exit. -/
theorem C4_duplicate_magnet_overwrite_leak
    (env : AddEnv) (st : ServerState) (A : TorrentSession) (m : String)
    (pu : Nat × List Nat)
    (hb : env.body = some m) (hnm : goHasPrefix httpPre m = false)
    (hmag : goHasPrefix magnetPre m = true) (hm0 : m ≠ "")
    (hmk : env.mkdirOk = true) (hnc : env.newClientOk = true)
    (ham : env.addMagnetOk = true) (hgi : env.gotInfo = true)
    (hprim : tryDraws st.usedPorts (env.draws.take 50) = some pu)
    (hlkA : st.sessions.lookup env.infoHash = some A)
    (hAport : A.port ∈ st.usedPorts)
    (hAclient : A.clientId ∈ st.openClients)
    (hAdir : A.tempDataDir ∈ st.dirs)
    (hcidfresh : env.clientId ∉ st.openClients)
    (hdirA : env.dirName ≠ A.tempDataDir)
    (hsole : ∀ p ∈ st.sessions, p.1 ≠ env.infoHash →
      p.2.port ≠ A.port ∧ p.2.clientId ≠ A.clientId ∧
      p.2.tempDataDir ≠ A.tempDataDir) :
    (addTorrentHandler env st).1 = [respSessionOk] ∧
    (addTorrentHandler env st).2.sessions.lookup env.infoHash =
      some ⟨env.clientId, pu.1, env.now, env.dirName⟩ ∧
    untracked (addTorrentHandler env st).2 A ∧
    (∀ ts : List Nat,
      A.port ∈ (sweepMany ts (addTorrentHandler env st).2).usedPorts ∧
      A.clientId ∈ (sweepMany ts (addTorrentHandler env st).2).openClients ∧
      A.tempDataDir ∈ (sweepMany ts (addTorrentHandler env st).2).dirs) := by
  obtain ⟨hpu2, hpu1⟩ := tryDraws_some _ _ _ hprim
  have hh := addTorrentHandler_success env st m pu hb hnm hmag hm0 hmk hnc ham hgi hprim
  have hunt : untracked (addTorrentHandler env st).2 A := by
    rw [hh]
    refine ⟨?_, ?_, ?_, ?_⟩
    · show A.port ∈ pu.2
      rw [hpu2]
      exact List.mem_cons_of_mem _ hAport
    · exact List.mem_cons_of_mem _ hAclient
    · exact List.mem_cons_of_mem _ hAdir
    · intro p hp
      rcases List.mem_cons.mp hp with hhead | htail
      · rw [hhead]
        refine ⟨?_, ?_, hdirA⟩
        · intro e
          have e2 : pu.1 = A.port := e
          exact hpu1 (e2 ▸ hAport)
        · intro e
          have e2 : env.clientId = A.clientId := e
          exact hcidfresh (e2 ▸ hAclient)
      · obtain ⟨hmem, hkey⟩ := List.mem_filter.mp htail
        exact hsole p hmem (bne_iff_ne.mp hkey)
  refine ⟨by rw [hh], ?_, hunt, ?_⟩
  · rw [hh]
    exact lookup_storeSession_self _ _ _
  · intro ts
    have h2 := untracked_sweepMany ts _ A hunt
    exact ⟨h2.1, h2.2.1, h2.2.2.1⟩

/-- Witness for C4: re-adding the magnet of the one registered session
(port 10000, client 1, dir "dir1" under id "h1") leases port 10001 for
the new engine; the old resources survive a much-later reaper sweep. -/
theorem C4_duplicate_magnet_overwrite_leak_witness :
    10000 ∈ (sweepMany [100000000]
      (addTorrentHandler
        ⟨some ("magnet:?xt=urn:btih:aaa"), true, none, [1], 0, "dir2", 2,
          true, true, true, true, "h1", 50⟩
        ⟨[("h1", ⟨1, 10000, 0, "dir1"⟩)], [10000], ["dir1"], [1]⟩).2).usedPorts ∧
    1 ∈ (sweepMany [100000000]
      (addTorrentHandler
        ⟨some ("magnet:?xt=urn:btih:aaa"), true, none, [1], 0, "dir2", 2,
          true, true, true, true, "h1", 50⟩
        ⟨[("h1", ⟨1, 10000, 0, "dir1"⟩)], [10000], ["dir1"], [1]⟩).2).openClients ∧
    ("dir1") ∈ (sweepMany [100000000]
      (addTorrentHandler
        ⟨some ("magnet:?xt=urn:btih:aaa"), true, none, [1], 0, "dir2", 2,
          true, true, true, true, "h1", 50⟩
        ⟨[("h1", ⟨1, 10000, 0, "dir1"⟩)], [10000], ["dir1"], [1]⟩).2).dirs := by
  have h := C4_duplicate_magnet_overwrite_leak
    ⟨some ("magnet:?xt=urn:btih:aaa"), true, none, [1], 0, "dir2", 2,
      true, true, true, true, "h1", 50⟩
    ⟨[("h1", ⟨1, 10000, 0, "dir1"⟩)], [10000], ["dir1"], [1]⟩
    ⟨1, 10000, 0, "dir1"⟩ ("magnet:?xt=urn:btih:aaa") (10001, [10001, 10000])
    rfl (by decide) (by decide) (by decide) rfl rfl rfl rfl (by decide)
    (by decide) (by decide) (by decide) (by decide) (by decide) (by decide)
    (by decide)
  exact h.2.2.2 [100000000]
